import Mathlib

/-!
# Verification of the Profanity plugin subsystem (`src/plugins/plugins.c`)

A shallow embedding of the plugin registry, loader, hook dispatcher and
teardown logic of `plugins.c`, together with theorems about its behaviour.

Modelling conventions:
* The file-scope global `GSList* plugins` becomes an explicit
  `List ProfPlugin` argument (the registry).
* The four per-language engine adapters (`python_plugins.c`, `ruby_plugins.c`,
  `lua_plugins.c`, `c_plugins.c`) are external collaborators: they are
  modelled by an `Engines` record of creation functions and enablement flags
  (the `PROF_HAVE_*` build flags).
* Side-effecting calls (engine env-init, logging, plugin init, destroy,
  engine shutdown, notification hooks) are recorded in an `Event` trace,
  in the exact order the C code performs them.
* `char*`-returning hooks become `Option String` (`NULL` = `none`); the
  `strdup`/`free` ownership chaining of the C code is value-level copying,
  so a transformed message is just the `String` value.
-/

namespace Prof

/-- The language tag of a plugin (`lang` field of `ProfPlugin` in C). -/
inductive Lang where
  | python
  | ruby
  | lua
  | c
deriving DecidableEq

/-- Modelled from the spec: the outcome of invoking a notification-style hook
inside a plugin. The engine-adapter code that turns an interpreter error into
an outcome is not part of `plugins.c`; the spec's `invoke` contract says a
hook invocation either completes or fails without raising to the caller. -/
inductive HookOutcome where
  | ok
  | failed (msg : String)
deriving DecidableEq

/-- The `ProfPlugin` struct: a language tag, the source path, and the table
of hook function pointers. Notification hooks yield a `HookOutcome`;
message-transform hooks yield an optional replacement (`NULL` = `none`). -/
structure ProfPlugin where
  lang : Lang
  name : String
  init_func : String → String → HookOutcome
  on_start_func : HookOutcome
  on_connect_func : String → String → HookOutcome
  on_disconnect_func : String → String → HookOutcome
  on_shutdown_func : HookOutcome
  before_message_displayed_func : String → Option String
  on_message_received_func : String → String → Option String
  on_private_message_received_func : String → String → String → Option String
  on_room_message_received_func : String → String → String → Option String
  on_message_send_func : String → String → Option String
  on_private_message_send_func : String → String → String → Option String
  on_room_message_send_func : String → String → Option String

/-- Observable events of the subsystem, in the order the C code emits them. -/
inductive Event where
  | envInit (lang : Lang)
  | logLoaded (filename : String)
  | initCall (pluginName version status : String) (outcome : HookOutcome)
  | notifyStart (pluginName : String) (outcome : HookOutcome)
  | notifyConnect (pluginName account fulljid : String) (outcome : HookOutcome)
  | notifyDisconnect (pluginName account fulljid : String) (outcome : HookOutcome)
  | notifyShutdown (pluginName : String) (outcome : HookOutcome)
  | destroyCall (pluginName : String) (lang : Lang)
  | engineShutdown (lang : Lang)
deriving DecidableEq

/-- Is this event an `init` hook invocation? -/
def Event.isInitCall : Event → Bool
  | .initCall _ _ _ _ => true
  | _ => false

/-- The four engine adapters, as seen from `plugins.c`: a `PROF_HAVE_*`
enablement flag and a `*_plugin_create` function per language variant. -/
structure Engines where
  havePython : Bool
  haveRuby : Bool
  haveLua : Bool
  haveC : Bool
  python_plugin_create : String → Option ProfPlugin
  ruby_plugin_create : String → Option ProfPlugin
  lua_plugin_create : String → Option ProfPlugin
  c_plugin_create : String → Option ProfPlugin

/-- Is the engine for a given language variant enabled (compiled in)? -/
def Engines.langEnabled (e : Engines) : Lang → Bool
  | .python => e.havePython
  | .ruby => e.haveRuby
  | .lua => e.haveLua
  | .c => e.haveC

/-- glib's `g_str_has_suffix`: does `s` end with `tail`? -/
def g_str_has_suffix (s tail : String) : Bool :=
  List.isSuffixOf tail.data s.data

/-- Build-time package version macro (`PROF_PACKAGE_VERSION`, from the build
configuration, outside `src/`). -/
def PROF_PACKAGE_VERSION : String := "0.4.0"

/-- Build-time package status macro (`PROF_PACKAGE_STATUS`, from the build
configuration, outside `src/`). -/
def PROF_PACKAGE_STATUS : String := "development"

/-- One iteration of the load loop of `plugins_init` (`plugins.c` lines
79-122): the four `#ifdef`-guarded suffix checks run in sequence, each
appending to the registry on a successful create and setting the `loaded`
flag; a set flag produces the `log_info("Loaded plugin: ...")` event. -/
def loadFile (e : Engines) (st : List ProfPlugin) (filename : String) :
    List ProfPlugin × List Event :=
  let loaded := false
  let (st, loaded) :=
    if e.havePython && g_str_has_suffix filename ".py" then
      match e.python_plugin_create filename with
      | some plugin => (st ++ [plugin], true)
      | none => (st, loaded)
    else (st, loaded)
  let (st, loaded) :=
    if e.haveRuby && g_str_has_suffix filename ".rb" then
      match e.ruby_plugin_create filename with
      | some plugin => (st ++ [plugin], true)
      | none => (st, loaded)
    else (st, loaded)
  let (st, loaded) :=
    if e.haveLua && g_str_has_suffix filename ".lua" then
      match e.lua_plugin_create filename with
      | some plugin => (st ++ [plugin], true)
      | none => (st, loaded)
    else (st, loaded)
  let (st, loaded) :=
    if e.haveC && g_str_has_suffix filename ".so" then
      match e.c_plugin_create filename with
      | some plugin => (st ++ [plugin], true)
      | none => (st, loaded)
    else (st, loaded)
  (st, if loaded then [Event.logLoaded filename] else [])

/-- The load loop of `plugins_init` over the whole filename list. -/
def loadFiles (e : Engines) (st : List ProfPlugin) :
    List String → List ProfPlugin × List Event
  | [] => (st, [])
  | f :: rest =>
    let (st2, evs) := loadFile e st f
    let (stFin, evs2) := loadFiles e st2 rest
    (stFin, evs ++ evs2)

/-- The initialisation walk of `plugins_init` (`plugins.c` lines 124-130):
call `init_func` on every registry plugin, in registry order, passing
`PROF_PACKAGE_VERSION` and `PROF_PACKAGE_STATUS`. -/
def initWalk : List ProfPlugin → List Event
  | [] => []
  | p :: rest =>
    Event.initCall p.name PROF_PACKAGE_VERSION PROF_PACKAGE_STATUS
        (p.init_func PROF_PACKAGE_VERSION PROF_PACKAGE_STATUS) :: initWalk rest

/-- The `*_env_init()` calls at the top of `plugins_init`, one per enabled
engine, in source order (python, ruby, lua, c). -/
def envInitEvents (e : Engines) : List Event :=
  (if e.havePython then [Event.envInit .python] else []) ++
  (if e.haveRuby then [Event.envInit .ruby] else []) ++
  (if e.haveLua then [Event.envInit .lua] else []) ++
  (if e.haveC then [Event.envInit .c] else [])

/-- `plugins_init` (`plugins.c` lines 57-134). The preferences collaborator
`prefs_get_plugins()` is an input: `none` models a `NULL` string vector,
`some files` a (possibly empty) vector. Returns the resulting registry and
the event trace. -/
def plugins_init (e : Engines) (prefs_get_plugins : Option (List String)) :
    List ProfPlugin × List Event :=
  match prefs_get_plugins with
  | none => ([], envInitEvents e)
  | some files =>
    let (registry, loadEvents) := loadFiles e [] files
    (registry, envInitEvents e ++ loadEvents ++ initWalk registry)

/-- The message-transform loop shared by all seven `plugins_*` transform
hooks: walk the registry, keep a current message, and when a plugin's hook
returns non-`NULL` the returned value replaces the current message for the
rest of the walk (`plugins.c` lines 206-215 and the six analogous loops). -/
def message_transform_loop (hook : ProfPlugin → String → Option String) :
    List ProfPlugin → String → String
  | [], curr_message => curr_message
  | p :: rest, curr_message =>
    match hook p curr_message with
    | some new_message => message_transform_loop hook rest new_message
    | none => message_transform_loop hook rest curr_message

/-- `plugins_before_message_displayed` (`plugins.c` lines 199-218). -/
def plugins_before_message_displayed (plugins : List ProfPlugin)
    (message : String) : String :=
  message_transform_loop (fun p m => p.before_message_displayed_func m)
    plugins message

/-- `plugins_on_message_received` (`plugins.c` lines 220-239). -/
def plugins_on_message_received (plugins : List ProfPlugin)
    (jid message : String) : String :=
  message_transform_loop (fun p m => p.on_message_received_func jid m)
    plugins message

/-- `plugins_on_private_message_received` (`plugins.c` lines 241-261). -/
def plugins_on_private_message_received (plugins : List ProfPlugin)
    (room nick message : String) : String :=
  message_transform_loop
    (fun p m => p.on_private_message_received_func room nick m) plugins message

/-- `plugins_on_room_message_received` (`plugins.c` lines 263-283). -/
def plugins_on_room_message_received (plugins : List ProfPlugin)
    (room nick message : String) : String :=
  message_transform_loop
    (fun p m => p.on_room_message_received_func room nick m) plugins message

/-- `plugins_on_message_send` (`plugins.c` lines 285-304). -/
def plugins_on_message_send (plugins : List ProfPlugin)
    (jid message : String) : String :=
  message_transform_loop (fun p m => p.on_message_send_func jid m)
    plugins message

/-- `plugins_on_private_message_send` (`plugins.c` lines 306-326). -/
def plugins_on_private_message_send (plugins : List ProfPlugin)
    (room nick message : String) : String :=
  message_transform_loop
    (fun p m => p.on_private_message_send_func room nick m) plugins message

/-- `plugins_on_room_message_send` (`plugins.c` lines 328-347). -/
def plugins_on_room_message_send (plugins : List ProfPlugin)
    (room message : String) : String :=
  message_transform_loop (fun p m => p.on_room_message_send_func room m)
    plugins message

/-- `plugins_on_start` (`plugins.c` lines 166-175): invoke `on_start_func`
on every registry plugin, in registry order. The loop inspects no result
and continues unconditionally. -/
def plugins_on_start : List ProfPlugin → List Event
  | [] => []
  | p :: rest => Event.notifyStart p.name p.on_start_func :: plugins_on_start rest

/-- `plugins_on_connect` (`plugins.c` lines 177-186). -/
def plugins_on_connect (account_name fulljid : String) :
    List ProfPlugin → List Event
  | [] => []
  | p :: rest =>
    Event.notifyConnect p.name account_name fulljid
        (p.on_connect_func account_name fulljid) ::
      plugins_on_connect account_name fulljid rest

/-- `plugins_on_disconnect` (`plugins.c` lines 188-197). -/
def plugins_on_disconnect (account_name fulljid : String) :
    List ProfPlugin → List Event
  | [] => []
  | p :: rest =>
    Event.notifyDisconnect p.name account_name fulljid
        (p.on_disconnect_func account_name fulljid) ::
      plugins_on_disconnect account_name fulljid rest

/-- `plugins_on_shutdown` (`plugins.c` lines 349-358). -/
def plugins_on_shutdown : List ProfPlugin → List Event
  | [] => []
  | p :: rest =>
    Event.notifyShutdown p.name p.on_shutdown_func :: plugins_on_shutdown rest

/-- One iteration of the destroy loop of `plugins_shutdown` (`plugins.c`
lines 365-388): four `#ifdef`-guarded language-tag checks, each calling the
matching engine's `*_plugin_destroy`. -/
def destroyEvents (e : Engines) (p : ProfPlugin) : List Event :=
  (if e.havePython && p.lang == .python
    then [Event.destroyCall p.name .python] else []) ++
  (if e.haveRuby && p.lang == .ruby
    then [Event.destroyCall p.name .ruby] else []) ++
  (if e.haveLua && p.lang == .lua
    then [Event.destroyCall p.name .lua] else []) ++
  (if e.haveC && p.lang == .c
    then [Event.destroyCall p.name .c] else [])

/-- The destroy loop of `plugins_shutdown` over the registry. -/
def destroyWalk (e : Engines) : List ProfPlugin → List Event
  | [] => []
  | p :: rest => destroyEvents e p ++ destroyWalk e rest

/-- The `*_shutdown()` calls at the end of `plugins_shutdown` (`plugins.c`
lines 389-400), one per enabled engine, in source order. -/
def engineShutdownEvents (e : Engines) : List Event :=
  (if e.havePython then [Event.engineShutdown .python] else []) ++
  (if e.haveRuby then [Event.engineShutdown .ruby] else []) ++
  (if e.haveLua then [Event.engineShutdown .lua] else []) ++
  (if e.haveC then [Event.engineShutdown .c] else [])

/-- `plugins_shutdown` (`plugins.c` lines 360-401): destroy every registry
plugin via its language's engine, then shut down every enabled engine. -/
def plugins_shutdown (e : Engines) (plugins : List ProfPlugin) : List Event :=
  destroyWalk e plugins ++ engineShutdownEvents e

/-- `plugins_get_dir` (`plugins.c` lines 403-414): append
`"/profanity/plugins"` to the platform data-home directory (the
`xdg_get_data_home()` collaborator value is the argument). -/
def plugins_get_dir (xdg_data : String) : String :=
  let plugins_dir := xdg_data ++ "/profanity/plugins"
  plugins_dir

/-- A test plugin whose every message-transform hook returns `reply`
regardless of its input, and whose notification hooks succeed. -/
def constPlugin (nm : String) (reply : Option String) : ProfPlugin where
  lang := .python
  name := nm
  init_func := fun _ _ => .ok
  on_start_func := .ok
  on_connect_func := fun _ _ => .ok
  on_disconnect_func := fun _ _ => .ok
  on_shutdown_func := .ok
  before_message_displayed_func := fun _ => reply
  on_message_received_func := fun _ _ => reply
  on_private_message_received_func := fun _ _ _ => reply
  on_room_message_received_func := fun _ _ _ => reply
  on_message_send_func := fun _ _ => reply
  on_private_message_send_func := fun _ _ _ => reply
  on_room_message_send_func := fun _ _ => reply

/-- The three-plugin chain of §8 of the spec: the first plugin replaces the
message with `"A"`, the second returns no value, the third replaces it
with `"B"`. -/
def chainABplugins : List ProfPlugin :=
  [constPlugin "p1" (some "A"), constPlugin "p2" none, constPlugin "p3" (some "B")]

/-- A test plugin whose every message-transform hook returns its own message
input unchanged (as a fresh value), and whose notification hooks succeed. -/
def echoPlugin : ProfPlugin where
  lang := .python
  name := "echo"
  init_func := fun _ _ => .ok
  on_start_func := .ok
  on_connect_func := fun _ _ => .ok
  on_disconnect_func := fun _ _ => .ok
  on_shutdown_func := .ok
  before_message_displayed_func := fun s => some s
  on_message_received_func := fun _ s => some s
  on_private_message_received_func := fun _ _ s => some s
  on_room_message_received_func := fun _ _ s => some s
  on_message_send_func := fun _ s => some s
  on_private_message_send_func := fun _ _ s => some s
  on_room_message_send_func := fun _ s => some s

/-- The per-file contribution of one iteration of the load loop: what the
four suffix branches append to the registry. -/
def filePlugins (e : Engines) (f : String) : List ProfPlugin :=
  (if e.havePython && g_str_has_suffix f ".py"
    then (e.python_plugin_create f).toList else []) ++
  (if e.haveRuby && g_str_has_suffix f ".rb"
    then (e.ruby_plugin_create f).toList else []) ++
  (if e.haveLua && g_str_has_suffix f ".lua"
    then (e.lua_plugin_create f).toList else []) ++
  (if e.haveC && g_str_has_suffix f ".so"
    then (e.c_plugin_create f).toList else [])

/-- Written from the spec's words (§4.2, §6): map the filename to the
language of its extension by the fixed table; if that engine variant is
enabled its `create` decides the plugin, otherwise (disabled variant or
unmapped extension) the file contributes nothing. -/
def createdPlugin (e : Engines) (f : String) : Option ProfPlugin :=
  if g_str_has_suffix f ".py" then
    (if e.havePython then e.python_plugin_create f else none)
  else if g_str_has_suffix f ".rb" then
    (if e.haveRuby then e.ruby_plugin_create f else none)
  else if g_str_has_suffix f ".lua" then
    (if e.haveLua then e.lua_plugin_create f else none)
  else if g_str_has_suffix f ".so" then
    (if e.haveC then e.c_plugin_create f else none)
  else none

/-- Is this event an engine `*_env_init` call? -/
def Event.isEnvInit : Event → Bool
  | .envInit _ => true
  | _ => false

/-- Is this event a `log_info("Loaded plugin: ...")` entry? -/
def Event.isLogLoaded : Event → Bool
  | .logLoaded _ => true
  | _ => false

/-- A minimal plugin of a given language: notification hooks succeed and
message-transform hooks return no value. -/
def basicPlugin (l : Lang) (nm : String) : ProfPlugin where
  lang := l
  name := nm
  init_func := fun _ _ => .ok
  on_start_func := .ok
  on_connect_func := fun _ _ => .ok
  on_disconnect_func := fun _ _ => .ok
  on_shutdown_func := .ok
  before_message_displayed_func := fun _ => none
  on_message_received_func := fun _ _ => none
  on_private_message_received_func := fun _ _ _ => none
  on_room_message_received_func := fun _ _ _ => none
  on_message_send_func := fun _ _ => none
  on_private_message_send_func := fun _ _ _ => none
  on_room_message_send_func := fun _ _ => none

/-- Engines for the load scenario of §8 of the spec: python and lua (and the
native variant) enabled, ruby disabled; every `create` succeeds. -/
def scenarioEngines : Engines where
  havePython := true
  haveRuby := false
  haveLua := true
  haveC := true
  python_plugin_create := fun f => some (basicPlugin .python f)
  ruby_plugin_create := fun f => some (basicPlugin .ruby f)
  lua_plugin_create := fun f => some (basicPlugin .lua f)
  c_plugin_create := fun f => some (basicPlugin .c f)

/-- A plugin whose `on_start` hook invocation fails. -/
def failingPlugin : ProfPlugin :=
  { basicPlugin .python "failing" with on_start_func := .failed "boom" }

/-- The enabled language variants, in source order. -/
def enabledLangs (e : Engines) : List Lang :=
  [Lang.python, Lang.ruby, Lang.lua, Lang.c].filter e.langEnabled

theorem g_str_has_suffix_disjoint (t₁ t₂ : String)
    (hlen : t₁.data.length ≤ t₂.data.length) (hne : ¬ t₁.data <:+ t₂.data)
    (s : String) (h₁ : g_str_has_suffix s t₁ = true)
    (h₂ : g_str_has_suffix s t₂ = true) : False := by
  rw [g_str_has_suffix, List.isSuffixOf_iff_suffix] at h₁ h₂
  exact hne (List.suffix_of_suffix_length_le h₁ h₂ hlen)

theorem loadFile_eq (e : Engines) (st : List ProfPlugin) (f : String) :
    loadFile e st f =
      (st ++ filePlugins e f,
       if (filePlugins e f).isEmpty then [] else [Event.logLoaded f]) := by
  unfold loadFile filePlugins
  cases hp : e.havePython && g_str_has_suffix f ".py" <;>
  cases hr : e.haveRuby && g_str_has_suffix f ".rb" <;>
  cases hl : e.haveLua && g_str_has_suffix f ".lua" <;>
  cases hc : e.haveC && g_str_has_suffix f ".so" <;>
  simp only [hp, hr, hl, hc, if_true, if_false, Bool.false_eq_true,
    ite_true, ite_false] <;>
  rcases e.python_plugin_create f with _ | p₁ <;>
  rcases e.ruby_plugin_create f with _ | p₂ <;>
  rcases e.lua_plugin_create f with _ | p₃ <;>
  rcases e.c_plugin_create f with _ | p₄ <;>
  simp [List.append_assoc]

theorem filePlugins_eq_createdPlugin (e : Engines) (f : String) :
    filePlugins e f = (createdPlugin e f).toList := by
  have d₁ := g_str_has_suffix_disjoint ".py" ".rb" (by decide) (by decide) f
  have d₂ := g_str_has_suffix_disjoint ".py" ".lua" (by decide) (by decide) f
  have d₃ := g_str_has_suffix_disjoint ".py" ".so" (by decide) (by decide) f
  have d₄ := g_str_has_suffix_disjoint ".rb" ".lua" (by decide) (by decide) f
  have d₅ := g_str_has_suffix_disjoint ".rb" ".so" (by decide) (by decide) f
  have d₆ := g_str_has_suffix_disjoint ".so" ".lua" (by decide) (by decide) f
  unfold filePlugins createdPlugin
  cases hp : g_str_has_suffix f ".py" <;>
  cases hr : g_str_has_suffix f ".rb" <;>
  cases hl : g_str_has_suffix f ".lua" <;>
  cases hc : g_str_has_suffix f ".so" <;>
  first
    | exact (d₁ hp hr).elim
    | exact (d₂ hp hl).elim
    | exact (d₃ hp hc).elim
    | exact (d₄ hr hl).elim
    | exact (d₅ hr hc).elim
    | exact (d₆ hc hl).elim
    | (cases hP : e.havePython <;> cases hR : e.haveRuby <;>
       cases hL : e.haveLua <;> cases hC : e.haveC <;>
       simp [hp, hr, hl, hc, hP, hR, hL, hC])

theorem loadFiles_fst (e : Engines) (st : List ProfPlugin)
    (files : List String) :
    (loadFiles e st files).1 = st ++ files.filterMap (createdPlugin e) := by
  induction files generalizing st with
  | nil => simp [loadFiles]
  | cons f rest ih =>
    rw [loadFiles, loadFile_eq]
    simp only []
    rw [ih]
    rw [filePlugins_eq_createdPlugin]
    cases h : createdPlugin e f <;> simp [List.filterMap_cons, h]

/-- C2: after a load batch, the registry equals the subsequence of the input
filename list on which the matching enabled engine's create succeeded
(`filterMap` of the spec-side per-file creation function): successes are
appended in input order, and a single file's failure or unmapped extension
never aborts the remaining files. -/
theorem registry_is_created_subsequence (e : Engines) (files : List String) :
    (plugins_init e (some files)).1 = files.filterMap (createdPlugin e) := by
  have h := loadFiles_fst e [] files
  rcases hLF : loadFiles e [] files with ⟨reg, evs⟩
  rw [hLF] at h
  simp only [List.nil_append] at h
  simp [plugins_init, hLF]
  exact h

theorem message_transform_loop_eq_foldl
    (hook : ProfPlugin → String → Option String)
    (plugins : List ProfPlugin) (message : String) :
    message_transform_loop hook plugins message =
      plugins.foldl (fun curr p => (hook p curr).getD curr) message := by
  induction plugins generalizing message with
  | nil => rfl
  | cons p rest ih =>
    simp only [message_transform_loop, List.foldl_cons]
    cases h : hook p message <;> simp [h, ih]

theorem message_transform_loop_echo_eq_silent
    (hook : ProfPlugin → String → Option String) (p q : ProfPlugin)
    (hp : ∀ s, hook p s = some s) (hq : ∀ s, hook q s = none)
    (l₁ l₂ : List ProfPlugin) (msg : String) :
    message_transform_loop hook (l₁ ++ p :: l₂) msg =
      message_transform_loop hook (l₁ ++ q :: l₂) msg := by
  induction l₁ generalizing msg with
  | nil => simp [message_transform_loop, hp, hq]
  | cons r rest ih =>
    simp only [List.cons_append, message_transform_loop]
    cases hook r msg <;> simp [ih]

/-- C1: every message-transform hook (before-display, on-receive variants,
on-send variants) is a left fold over the registry: the value is seeded from
the caller's message, each plugin in registry order receives the current
value, a non-null result replaces it and a null result leaves it unchanged,
and the value after the last plugin is returned; on a three-plugin chain
returning "A", no value, and "B", the final result is "B". -/
theorem transform_hooks_are_left_folds :
    (∀ ps msg, plugins_before_message_displayed ps msg =
      ps.foldl (fun curr p => (p.before_message_displayed_func curr).getD curr) msg) ∧
    (∀ ps jid msg, plugins_on_message_received ps jid msg =
      ps.foldl (fun curr p => (p.on_message_received_func jid curr).getD curr) msg) ∧
    (∀ ps room nick msg, plugins_on_private_message_received ps room nick msg =
      ps.foldl (fun curr p => (p.on_private_message_received_func room nick curr).getD curr) msg) ∧
    (∀ ps room nick msg, plugins_on_room_message_received ps room nick msg =
      ps.foldl (fun curr p => (p.on_room_message_received_func room nick curr).getD curr) msg) ∧
    (∀ ps jid msg, plugins_on_message_send ps jid msg =
      ps.foldl (fun curr p => (p.on_message_send_func jid curr).getD curr) msg) ∧
    (∀ ps room nick msg, plugins_on_private_message_send ps room nick msg =
      ps.foldl (fun curr p => (p.on_private_message_send_func room nick curr).getD curr) msg) ∧
    (∀ ps room msg, plugins_on_room_message_send ps room msg =
      ps.foldl (fun curr p => (p.on_room_message_send_func room curr).getD curr) msg) ∧
    (∀ msg, plugins_before_message_displayed chainABplugins msg = "B") ∧
    (∀ jid msg, plugins_on_message_received chainABplugins jid msg = "B") ∧
    (∀ room nick msg, plugins_on_private_message_received chainABplugins room nick msg = "B") ∧
    (∀ room nick msg, plugins_on_room_message_received chainABplugins room nick msg = "B") ∧
    (∀ jid msg, plugins_on_message_send chainABplugins jid msg = "B") ∧
    (∀ room nick msg, plugins_on_private_message_send chainABplugins room nick msg = "B") ∧
    (∀ room msg, plugins_on_room_message_send chainABplugins room msg = "B") :=
  ⟨fun ps msg => message_transform_loop_eq_foldl _ ps msg,
   fun ps _ msg => message_transform_loop_eq_foldl _ ps msg,
   fun ps _ _ msg => message_transform_loop_eq_foldl _ ps msg,
   fun ps _ _ msg => message_transform_loop_eq_foldl _ ps msg,
   fun ps _ msg => message_transform_loop_eq_foldl _ ps msg,
   fun ps _ _ msg => message_transform_loop_eq_foldl _ ps msg,
   fun ps _ msg => message_transform_loop_eq_foldl _ ps msg,
   fun _ => rfl, fun _ _ => rfl, fun _ _ _ => rfl, fun _ _ _ => rfl,
   fun _ _ => rfl, fun _ _ _ => rfl, fun _ _ => rfl⟩

/-- C5: with zero plugins in the registry, every message-transform hook
returns a value equal to its input message, for every input. -/
theorem transform_hooks_identity_on_empty_registry :
    (∀ msg, plugins_before_message_displayed [] msg = msg) ∧
    (∀ jid msg, plugins_on_message_received [] jid msg = msg) ∧
    (∀ room nick msg, plugins_on_private_message_received [] room nick msg = msg) ∧
    (∀ room nick msg, plugins_on_room_message_received [] room nick msg = msg) ∧
    (∀ jid msg, plugins_on_message_send [] jid msg = msg) ∧
    (∀ room nick msg, plugins_on_private_message_send [] room nick msg = msg) ∧
    (∀ room msg, plugins_on_room_message_send [] room msg = msg) :=
  ⟨fun _ => rfl, fun _ _ => rfl, fun _ _ _ => rfl, fun _ _ _ => rfl,
   fun _ _ => rfl, fun _ _ _ => rfl, fun _ _ => rfl⟩

/-- C8: for every message-transform hook, a plugin that returns its own
input unchanged is observably identical to the same plugin returning no
value: in any registry position, the value passed onward and the final
result agree in both cases. -/
theorem echo_plugin_equals_silent_plugin (p : ProfPlugin)
    (h₁ : ∀ s, p.before_message_displayed_func s = some s)
    (h₂ : ∀ j s, p.on_message_received_func j s = some s)
    (h₃ : ∀ r n s, p.on_private_message_received_func r n s = some s)
    (h₄ : ∀ r n s, p.on_room_message_received_func r n s = some s)
    (h₅ : ∀ j s, p.on_message_send_func j s = some s)
    (h₆ : ∀ r n s, p.on_private_message_send_func r n s = some s)
    (h₇ : ∀ r s, p.on_room_message_send_func r s = some s)
    (l₁ l₂ : List ProfPlugin) :
    (∀ msg, plugins_before_message_displayed (l₁ ++ p :: l₂) msg =
      plugins_before_message_displayed
        (l₁ ++ { p with before_message_displayed_func := fun _ => none } :: l₂) msg) ∧
    (∀ jid msg, plugins_on_message_received (l₁ ++ p :: l₂) jid msg =
      plugins_on_message_received
        (l₁ ++ { p with on_message_received_func := fun _ _ => none } :: l₂) jid msg) ∧
    (∀ room nick msg, plugins_on_private_message_received (l₁ ++ p :: l₂) room nick msg =
      plugins_on_private_message_received
        (l₁ ++ { p with on_private_message_received_func := fun _ _ _ => none } :: l₂) room nick msg) ∧
    (∀ room nick msg, plugins_on_room_message_received (l₁ ++ p :: l₂) room nick msg =
      plugins_on_room_message_received
        (l₁ ++ { p with on_room_message_received_func := fun _ _ _ => none } :: l₂) room nick msg) ∧
    (∀ jid msg, plugins_on_message_send (l₁ ++ p :: l₂) jid msg =
      plugins_on_message_send
        (l₁ ++ { p with on_message_send_func := fun _ _ => none } :: l₂) jid msg) ∧
    (∀ room nick msg, plugins_on_private_message_send (l₁ ++ p :: l₂) room nick msg =
      plugins_on_private_message_send
        (l₁ ++ { p with on_private_message_send_func := fun _ _ _ => none } :: l₂) room nick msg) ∧
    (∀ room msg, plugins_on_room_message_send (l₁ ++ p :: l₂) room msg =
      plugins_on_room_message_send
        (l₁ ++ { p with on_room_message_send_func := fun _ _ => none } :: l₂) room msg) :=
  ⟨fun msg => message_transform_loop_echo_eq_silent _ p _ h₁ (fun _ => rfl) l₁ l₂ msg,
   fun j msg => message_transform_loop_echo_eq_silent _ p _ (h₂ j) (fun _ => rfl) l₁ l₂ msg,
   fun r n msg => message_transform_loop_echo_eq_silent _ p _ (h₃ r n) (fun _ => rfl) l₁ l₂ msg,
   fun r n msg => message_transform_loop_echo_eq_silent _ p _ (h₄ r n) (fun _ => rfl) l₁ l₂ msg,
   fun j msg => message_transform_loop_echo_eq_silent _ p _ (h₅ j) (fun _ => rfl) l₁ l₂ msg,
   fun r n msg => message_transform_loop_echo_eq_silent _ p _ (h₆ r n) (fun _ => rfl) l₁ l₂ msg,
   fun r msg => message_transform_loop_echo_eq_silent _ p _ (h₇ r) (fun _ => rfl) l₁ l₂ msg⟩

/-- Instantiation of `echo_plugin_equals_silent_plugin` at the concrete
`echoPlugin` in a singleton registry. -/
theorem echo_plugin_equals_silent_plugin_witness :
    plugins_before_message_displayed ([] ++ echoPlugin :: []) "m" =
      plugins_before_message_displayed
        ([] ++ { echoPlugin with before_message_displayed_func := fun _ => none } :: []) "m" :=
  (echo_plugin_equals_silent_plugin echoPlugin (fun _ => rfl) (fun _ _ => rfl)
    (fun _ _ _ => rfl) (fun _ _ _ => rfl) (fun _ _ => rfl) (fun _ _ _ => rfl)
    (fun _ _ => rfl) [] []).1 "m"

theorem mem_ite_singleton {c : Prop} [Decidable c] {x ev : Event}
    (h : ev ∈ if c then [x] else []) : ev = x := by
  split at h
  · simpa using h
  · simp at h

theorem envInitEvents_all (e : Engines) :
    ∀ ev ∈ envInitEvents e, ev.isEnvInit = true := by
  intro ev hev
  unfold envInitEvents at hev
  rcases List.mem_append.1 hev with h | h
  · rcases List.mem_append.1 h with h | h
    · rcases List.mem_append.1 h with h | h
      · rw [mem_ite_singleton h]; rfl
      · rw [mem_ite_singleton h]; rfl
    · rw [mem_ite_singleton h]; rfl
  · rw [mem_ite_singleton h]; rfl

theorem loadFiles_snd_all_logLoaded (e : Engines) (st : List ProfPlugin)
    (files : List String) :
    ∀ ev ∈ (loadFiles e st files).2, ev.isLogLoaded = true := by
  induction files generalizing st with
  | nil => intro ev h; simp [loadFiles] at h
  | cons f rest ih =>
    intro ev h
    rcases hLF : loadFile e st f with ⟨st2, evs⟩
    rcases hLR : loadFiles e st2 rest with ⟨stFin, evs2⟩
    simp only [loadFiles, hLF, hLR] at h
    rcases List.mem_append.1 h with h | h
    · have h2 := loadFile_eq e st f
      rw [hLF] at h2
      have hevs : evs = if (filePlugins e f).isEmpty
          then [] else [Event.logLoaded f] := congrArg Prod.snd h2
      rw [hevs] at h
      split at h
      · simp at h
      · rw [List.mem_singleton.1 h]; rfl
    · exact ih st2 ev (by rw [hLR]; exact h)

theorem init_walk_eq_map (ps : List ProfPlugin) :
    initWalk ps = ps.map (fun p =>
      Event.initCall p.name PROF_PACKAGE_VERSION PROF_PACKAGE_STATUS
        (p.init_func PROF_PACKAGE_VERSION PROF_PACKAGE_STATUS)) := by
  induction ps with
  | nil => rfl
  | cons p rest ih => simp [initWalk, ih]

/-- C3: for every plugin that ends up in the registry, `init` is invoked on
it exactly once — the trailing block of the trace is exactly one `init`
call per registry plugin, in registry order, carrying the host
version/status metadata — and everything else in the trace (engine env-init
and load events) precedes that block, so `init` is never interleaved with
the loading of later files. -/
theorem init_invoked_once_after_batch (e : Engines) (files : List String) :
    ∃ evs : List Event,
      (plugins_init e (some files)).2 =
        evs ++ (plugins_init e (some files)).1.map (fun p =>
          Event.initCall p.name PROF_PACKAGE_VERSION PROF_PACKAGE_STATUS
            (p.init_func PROF_PACKAGE_VERSION PROF_PACKAGE_STATUS)) ∧
      ∀ ev ∈ evs, Event.isInitCall ev = false := by
  rcases hLF : loadFiles e [] files with ⟨reg, levs⟩
  refine ⟨envInitEvents e ++ levs, ?_, ?_⟩
  · simp [plugins_init, hLF, init_walk_eq_map, List.append_assoc]
  · intro ev hev
    rcases List.mem_append.1 hev with h | h
    · have hshape := envInitEvents_all e ev h
      cases ev <;> simp_all [Event.isEnvInit, Event.isInitCall]
    · have hshape := loadFiles_snd_all_logLoaded e [] files ev
        (by rw [hLF]; exact h)
      cases ev <;> simp_all [Event.isLogLoaded, Event.isInitCall]

/-- Instantiation of `init_invoked_once_after_batch` at a concrete engine
set and load batch. -/
theorem init_invoked_once_after_batch_witness :
    ∃ evs : List Event,
      (plugins_init scenarioEngines (some ["a.py"])).2 =
        evs ++ (plugins_init scenarioEngines (some ["a.py"])).1.map (fun p =>
          Event.initCall p.name PROF_PACKAGE_VERSION PROF_PACKAGE_STATUS
            (p.init_func PROF_PACKAGE_VERSION PROF_PACKAGE_STATUS)) ∧
      ∀ ev ∈ evs, Event.isInitCall ev = false :=
  init_invoked_once_after_batch scenarioEngines ["a.py"]

theorem destroyEvents_enabled (e : Engines) (p : ProfPlugin)
    (h : e.langEnabled p.lang = true) :
    destroyEvents e p = [Event.destroyCall p.name p.lang] := by
  cases hL : p.lang <;>
    (rw [hL] at h; simp only [Engines.langEnabled] at h;
     simp [destroyEvents, hL, h])

theorem destroyWalk_eq_map (e : Engines) (ps : List ProfPlugin)
    (h : ∀ p ∈ ps, e.langEnabled p.lang = true) :
    destroyWalk e ps = ps.map (fun p => Event.destroyCall p.name p.lang) := by
  induction ps with
  | nil => rfl
  | cons p rest ih =>
    simp [destroyWalk, destroyEvents_enabled e p (h p (by simp)),
      ih (fun q hq => h q (by simp [hq]))]

theorem count_engineShutdown_events (e : Engines) (l : Lang) :
    (engineShutdownEvents e).count (Event.engineShutdown l) =
      if e.langEnabled l then 1 else 0 := by
  cases l <;> cases hP : e.havePython <;> cases hR : e.haveRuby <;>
    cases hL : e.haveLua <;> cases hC : e.haveC <;>
      simp [engineShutdownEvents, Engines.langEnabled, hP, hR, hL, hC,
        List.count_cons, List.count_nil, List.count_append]

theorem count_engineShutdown_destroy_map (ps : List ProfPlugin) (l : Lang) :
    (ps.map (fun p => Event.destroyCall p.name p.lang)).count
      (Event.engineShutdown l) = 0 := by
  rw [List.count_eq_zero]
  simp

/-- C4: during teardown, the trace is exactly one `destroy` per registry
plugin, in registry order, each via the plugin's owning engine (the
language tags match), followed by the engine shutdowns; consequently every
plugin's destroy precedes every engine's shutdown, and each enabled
language variant's shutdown occurs exactly once in the whole trace. -/
theorem teardown_destroy_before_engine_shutdown (e : Engines)
    (ps : List ProfPlugin) (h : ∀ p ∈ ps, e.langEnabled p.lang = true) :
    plugins_shutdown e ps =
      ps.map (fun p => Event.destroyCall p.name p.lang) ++
        engineShutdownEvents e ∧
    ∀ l, (plugins_shutdown e ps).count (Event.engineShutdown l) =
      if e.langEnabled l then 1 else 0 := by
  have hd := destroyWalk_eq_map e ps h
  constructor
  · simp [plugins_shutdown, hd]
  · intro l
    rw [plugins_shutdown, List.count_append, hd,
      count_engineShutdown_destroy_map, count_engineShutdown_events]
    simp

/-- Instantiation of `teardown_destroy_before_engine_shutdown` at a
concrete engine set and registry. -/
theorem teardown_destroy_before_engine_shutdown_witness :
    plugins_shutdown scenarioEngines
        [basicPlugin .python "a.py", basicPlugin .lua "c.lua"] =
      [basicPlugin .python "a.py", basicPlugin .lua "c.lua"].map
          (fun p => Event.destroyCall p.name p.lang) ++
        engineShutdownEvents scenarioEngines ∧
    ∀ l, (plugins_shutdown scenarioEngines
        [basicPlugin .python "a.py", basicPlugin .lua "c.lua"]).count
          (Event.engineShutdown l) =
      if scenarioEngines.langEnabled l then 1 else 0 :=
  teardown_destroy_before_engine_shutdown scenarioEngines
    [basicPlugin .python "a.py", basicPlugin .lua "c.lua"]
    (by
      intro p hp
      simp only [List.mem_cons, List.not_mem_nil, or_false] at hp
      rcases hp with rfl | rfl <;> rfl)

theorem plugins_on_start_eq_map (ps : List ProfPlugin) :
    plugins_on_start ps =
      ps.map (fun p => Event.notifyStart p.name p.on_start_func) := by
  induction ps with
  | nil => rfl
  | cons p rest ih => simp [plugins_on_start, ih]

theorem plugins_on_connect_eq_map (a j : String) (ps : List ProfPlugin) :
    plugins_on_connect a j ps =
      ps.map (fun p => Event.notifyConnect p.name a j (p.on_connect_func a j)) := by
  induction ps with
  | nil => rfl
  | cons p rest ih => simp [plugins_on_connect, ih]

theorem plugins_on_disconnect_eq_map (a j : String) (ps : List ProfPlugin) :
    plugins_on_disconnect a j ps =
      ps.map (fun p =>
        Event.notifyDisconnect p.name a j (p.on_disconnect_func a j)) := by
  induction ps with
  | nil => rfl
  | cons p rest ih => simp [plugins_on_disconnect, ih]

theorem plugins_on_shutdown_eq_map (ps : List ProfPlugin) :
    plugins_on_shutdown ps =
      ps.map (fun p => Event.notifyShutdown p.name p.on_shutdown_func) := by
  induction ps with
  | nil => rfl
  | cons p rest ih => simp [plugins_on_shutdown, ih]

/-- C6: every notification hook (start, connect, disconnect, shutdown)
dispatches to each plugin in registry order — the trace is exactly one
invocation per registry plugin — and a failing hook outcome is recorded in
the trace without propagating to the caller and without removing any
subsequent plugin's invocation: in particular a registry with a failing
plugin in the middle still dispatches to everything after it. -/
theorem notification_hooks_in_order_isolated :
    (∀ ps, plugins_on_start ps =
      ps.map (fun p => Event.notifyStart p.name p.on_start_func)) ∧
    (∀ a j ps, plugins_on_connect a j ps =
      ps.map (fun p => Event.notifyConnect p.name a j (p.on_connect_func a j))) ∧
    (∀ a j ps, plugins_on_disconnect a j ps =
      ps.map (fun p =>
        Event.notifyDisconnect p.name a j (p.on_disconnect_func a j))) ∧
    (∀ ps, plugins_on_shutdown ps =
      ps.map (fun p => Event.notifyShutdown p.name p.on_shutdown_func)) ∧
    (∀ (l₁ : List ProfPlugin) (p : ProfPlugin) (l₂ : List ProfPlugin)
        (m : String), p.on_start_func = HookOutcome.failed m →
      plugins_on_start (l₁ ++ p :: l₂) =
        plugins_on_start l₁ ++
          Event.notifyStart p.name (HookOutcome.failed m) ::
            plugins_on_start l₂) := by
  refine ⟨plugins_on_start_eq_map, plugins_on_connect_eq_map,
    plugins_on_disconnect_eq_map, plugins_on_shutdown_eq_map, ?_⟩
  intro l₁ p l₂ m hfail
  simp [plugins_on_start_eq_map, hfail]

/-- Instantiation of `notification_hooks_in_order_isolated`: a failing
plugin in the middle of a three-plugin registry does not remove the
invocation of the plugin after it. -/
theorem notification_hooks_in_order_isolated_witness :
    plugins_on_start ([basicPlugin .python "a"] ++ failingPlugin ::
        [basicPlugin .lua "b"]) =
      plugins_on_start [basicPlugin .python "a"] ++
        Event.notifyStart failingPlugin.name (HookOutcome.failed "boom") ::
          plugins_on_start [basicPlugin .lua "b"] :=
  notification_hooks_in_order_isolated.2.2.2.2
    [basicPlugin .python "a"] failingPlugin [basicPlugin .lua "b"] "boom" rfl

theorem loadFile_ruby_create_irrelevant (e : Engines)
    (create : String → Option ProfPlugin) (hR : e.haveRuby = false)
    (st : List ProfPlugin) (f : String) :
    loadFile { e with ruby_plugin_create := create } st f = loadFile e st f := by
  simp [loadFile, hR]

theorem loadFiles_ruby_create_irrelevant (e : Engines)
    (create : String → Option ProfPlugin) (hR : e.haveRuby = false)
    (st : List ProfPlugin) (files : List String) :
    loadFiles { e with ruby_plugin_create := create } st files =
      loadFiles e st files := by
  induction files generalizing st with
  | nil => rfl
  | cons f rest ih =>
    simp only [loadFiles, loadFile_ruby_create_irrelevant e create hR, ih]

theorem plugins_init_ruby_create_irrelevant (e : Engines)
    (create : String → Option ProfPlugin) (hR : e.haveRuby = false)
    (prefs : Option (List String)) :
    plugins_init { e with ruby_plugin_create := create } prefs =
      plugins_init e prefs := by
  cases prefs with
  | none => rfl
  | some files =>
    simp only [plugins_init, loadFiles_ruby_create_irrelevant e create hR,
      envInitEvents]

/-- C7: loading `["a.py","b.xyz","c.lua"]` with python and lua enabled and
ruby disabled (all creates succeeding) yields exactly the two plugins
`[a.py, c.lua]` in that order; and with a disabled ruby engine the ruby
create function is never consulted — the loader behaves exactly as if no
extension mapped to that language. -/
theorem load_scenario_py_lua :
    (plugins_init scenarioEngines (some ["a.py", "b.xyz", "c.lua"])).1 =
      [basicPlugin .python "a.py", basicPlugin .lua "c.lua"] ∧
    (∀ (e : Engines) (create : String → Option ProfPlugin)
        (prefs : Option (List String)), e.haveRuby = false →
      plugins_init { e with ruby_plugin_create := create } prefs =
        plugins_init e prefs) := by
  constructor
  · rfl
  · exact fun e create prefs hR =>
      plugins_init_ruby_create_irrelevant e create hR prefs

/-- Instantiation of `load_scenario_py_lua`: replacing the (disabled) ruby
create function changes nothing on a concrete batch. -/
theorem load_scenario_py_lua_witness :
    plugins_init { scenarioEngines with ruby_plugin_create := fun _ => none }
        (some ["a.py", "b.rb"]) =
      plugins_init scenarioEngines (some ["a.py", "b.rb"]) :=
  load_scenario_py_lua.2 scenarioEngines (fun _ => none)
    (some ["a.py", "b.rb"]) rfl

/-- C9: `plugins_get_dir` is exactly the platform data-home path followed by
the application-name segment and `plugins`; it is a pure function of the
data-home value alone (it takes no registry or dispatch state). -/
theorem plugins_get_dir_is_data_home_app_plugins (xdg : String) :
    plugins_get_dir xdg = xdg ++ "/" ++ "profanity" ++ "/" ++ "plugins" := by
  have h : "/profanity/plugins" = "/" ++ "profanity" ++ "/" ++ "plugins" := by
    decide
  show xdg ++ "/profanity/plugins" = xdg ++ "/" ++ "profanity" ++ "/" ++ "plugins"
  rw [h]
  simp [String.append_assoc]

/-- C10: with a null plugin filename list from preferences, `plugins_init`
still env-inits every enabled engine (and nothing else — in particular no
plugin `init` hook runs), leaves the registry empty, and all hook dispatch
on the resulting empty registry is trivial: notifications invoke nothing
and every message transform is the identity. -/
theorem plugins_init_null_prefs (e : Engines) :
    (plugins_init e none).1 = [] ∧
    (plugins_init e none).2 = (enabledLangs e).map Event.envInit ∧
    (∀ ev ∈ (plugins_init e none).2, Event.isInitCall ev = false) ∧
    plugins_on_start [] = [] ∧
    (∀ a j, plugins_on_connect a j [] = []) ∧
    (∀ a j, plugins_on_disconnect a j [] = []) ∧
    plugins_on_shutdown [] = [] ∧
    (∀ msg, plugins_before_message_displayed [] msg = msg) ∧
    (∀ jid msg, plugins_on_message_received [] jid msg = msg) ∧
    (∀ r n msg, plugins_on_private_message_received [] r n msg = msg) ∧
    (∀ r n msg, plugins_on_room_message_received [] r n msg = msg) ∧
    (∀ jid msg, plugins_on_message_send [] jid msg = msg) ∧
    (∀ r n msg, plugins_on_private_message_send [] r n msg = msg) ∧
    (∀ r msg, plugins_on_room_message_send [] r msg = msg) := by
  refine ⟨rfl, ?_, ?_, rfl, fun _ _ => rfl, fun _ _ => rfl, rfl,
    fun _ => rfl, fun _ _ => rfl, fun _ _ _ => rfl, fun _ _ _ => rfl,
    fun _ _ => rfl, fun _ _ _ => rfl, fun _ _ => rfl⟩
  · show envInitEvents e = (enabledLangs e).map Event.envInit
    cases hP : e.havePython <;> cases hR : e.haveRuby <;>
      cases hL : e.haveLua <;> cases hC : e.haveC <;>
        simp [envInitEvents, enabledLangs, Engines.langEnabled, hP, hR, hL, hC]
  · intro ev hev
    have hshape := envInitEvents_all e ev hev
    cases ev <;> simp_all [Event.isEnvInit, Event.isInitCall]

/-- Instantiation of `plugins_init_null_prefs` at a concrete engine set. -/
theorem plugins_init_null_prefs_witness :
    (plugins_init scenarioEngines none).1 = [] ∧
    (plugins_init scenarioEngines none).2 =
      (enabledLangs scenarioEngines).map Event.envInit :=
  ⟨(plugins_init_null_prefs scenarioEngines).1,
   (plugins_init_null_prefs scenarioEngines).2.1⟩

end Prof
